import Mathlib

/-!
Shallow embedding of the two scripts of the repository qjlxg/Have:
`backtest_engine.py` (indicator computation and forward-return backtest) and
`consecutive_drop_analysis.py` (indicator computation, signal scoring and the
virtual position ledger `update_portfolio`).

Modelling conventions:
* numeric CSV columns are rationals (`ℚ`);
* pandas float special values (`inf`, `-inf`, `NaN`) that arise from division
  are modelled explicitly by `FloatVal`; a pandas comparison involving `NaN`
  is `False`, which the `fv*` comparison functions reproduce;
* calendar dates are integer day ordinals, so `(d2 - d1).days` becomes `d2 - d1`;
* instrument codes are naturals (the scripts convert codes with `int(...)`);
* a column that is `NaN` during indicator warm-up is an `Option` `none`.
-/

/-- A pandas float cell: a finite rational, `inf`, `-inf` or `NaN`. -/
inductive FloatVal
| fin (q : ℚ)
| posInf
| negInf
| nan
deriving DecidableEq

/-- IEEE-style `v < q` for a float cell against a finite number:
comparisons with `NaN` are false. -/
def fvLtQ : FloatVal → ℚ → Bool
| FloatVal.fin a, q => decide (a < q)
| FloatVal.negInf, _ => true
| FloatVal.posInf, _ => false
| FloatVal.nan, _ => false

/-- IEEE-style `v > q` for a float cell against a finite number. -/
def fvGtQ : FloatVal → ℚ → Bool
| FloatVal.fin a, q => decide (q < a)
| FloatVal.posInf, _ => true
| FloatVal.negInf, _ => false
| FloatVal.nan, _ => false

/-- IEEE-style `v > w` on two float cells (`NaN` compares false). -/
def fvGtF : FloatVal → FloatVal → Bool
| FloatVal.fin a, FloatVal.fin b => decide (b < a)
| FloatVal.fin _, FloatVal.negInf => true
| FloatVal.posInf, FloatVal.fin _ => true
| FloatVal.posInf, FloatVal.negInf => true
| _, _ => false

/-- Float division of finite operands as pandas performs it elementwise:
division by zero yields `NaN` for `0/0` and a signed infinity otherwise. -/
def fdiv (num den : ℚ) : FloatVal :=
  if den = 0 then
    (if num = 0 then FloatVal.nan else if 0 < num then FloatVal.posInf else FloatVal.negInf)
  else FloatVal.fin (num / den)

/-- Python `round` to an integer: round half to even. -/
def pyRound (x : ℚ) : ℤ :=
  let f := ⌊x⌋
  let r := x - f
  if r < 1/2 then f
  else if 1/2 < r then f + 1
  else if f % 2 = 0 then f else f + 1

/-- Python `round(x, 2)`. -/
def round2 (x : ℚ) : ℚ := (pyRound (x * 100) : ℚ) / 100

/-- Python `round(x, 3)`. -/
def round3 (x : ℚ) : ℚ := (pyRound (x * 1000) : ℚ) / 1000

/-- `round(·, 2)` lifted to float cells (`round` keeps `inf`/`NaN`). -/
def round2fv : FloatVal → FloatVal
| FloatVal.fin q => FloatVal.fin (round2 q)
| v => v

/-- `round(·, 3)` lifted to float cells. -/
def round3fv : FloatVal → FloatVal
| FloatVal.fin q => FloatVal.fin (round3 q)
| v => v

/-!
## IndicatorEngine: RSI(14) and the volume ratio

Both scripts compute these columns identically (`calculate_backtest_indicators`
in `backtest_engine.py`, `calculate_tech` in `consecutive_drop_analysis.py`):

  delta = close.diff()
  gain  = delta.where(delta > 0, 0).rolling(14).mean()
  loss  = (-delta.where(delta < 0, 0)).rolling(14).mean()
  RSI   = 100 - (100 / (1 + gain / loss))

  V_MA5     = volume.shift(1).rolling(5).mean()
  VOL_RATIO = volume / V_MA5

Note `delta.where(delta > 0, 0)` turns the leading `NaN` of `diff()` into `0`
(because `NaN > 0` is false), so the gain/loss series has no `NaN` at index 0
and the rolling-14 mean is already defined at index 13, with one artificial
zero in its first window.
-/

/-- The clipped positive close-to-close change at index `k`
(the `where(delta > 0, 0)` column; index 0 is the clipped `diff` `NaN`, i.e. `0`). -/
def gainD (c : List ℚ) (k : Nat) : ℚ :=
  if k = 0 then 0 else max (c.getD k 0 - c.getD (k - 1) 0) 0

/-- The clipped negative close-to-close change at index `k`, as a positive number. -/
def lossD (c : List ℚ) (k : Nat) : ℚ :=
  if k = 0 then 0 else max (c.getD (k - 1) 0 - c.getD k 0) 0

/-- `gain.rolling(14).mean()` at index `i`: defined once the window of 14
clipped deltas fits, i.e. from index 13 on. -/
def avgGain (c : List ℚ) (i : Nat) : Option ℚ :=
  if 13 ≤ i ∧ i < c.length then
    some ((((List.range 14).map (fun j => gainD c (i - j))).sum) / 14)
  else none

/-- `loss.rolling(14).mean()` at index `i`. -/
def avgLoss (c : List ℚ) (i : Nat) : Option ℚ :=
  if 13 ≤ i ∧ i < c.length then
    some ((((List.range 14).map (fun j => lossD c (i - j))).sum) / 14)
  else none

/-- `100 - 100 / (1 + gain / loss)` under float semantics for nonnegative
finite `gain`, `loss`: with `loss = 0` the quotient is `inf` (value `100`)
when `gain > 0` and `NaN` (undefined) when `gain = 0`. -/
def rsiFrom (g l : ℚ) : Option ℚ :=
  if l = 0 then (if g = 0 then none else some 100)
  else some (100 - 100 / (1 + g / l))

/-- The `RSI` column at index `i`; `none` where pandas leaves `NaN`. -/
def RSI_at (c : List ℚ) (i : Nat) : Option ℚ :=
  match avgGain c i, avgLoss c i with
  | some g, some l => rsiFrom g l
  | _, _ => none

/-- `volume.shift(1).rolling(5).mean()` at index `i`: the mean of the five
volumes strictly before `i`, defined from index 5 on. -/
def vMA5 (v : List ℚ) (i : Nat) : Option ℚ :=
  if 5 ≤ i ∧ i < v.length then
    some ((((List.range 5).map (fun j => v.getD (i - 1 - j) 0)).sum) / 5)
  else none

/-- The `VOL_RATIO` column at index `i`: today's volume divided (as a float)
by the trailing-5 average. -/
def volRatAt (v : List ℚ) (i : Nat) : Option FloatVal :=
  (vMA5 v i).map (fun a => fdiv (v.getD i 0) a)

/-!
## BacktestSimulator (`run_single_backtest` in `backtest_engine.py`)

The scoring loop reads, per row, the CSV columns 日期/收盘/最低/成交额/涨跌幅 and
the indicator columns RSI/J/Y_CHG/BIAS/VOL_RATIO produced by
`calculate_backtest_indicators`; a `BTRow` carries exactly those cells.
-/

structure BTRow where
  date : ℤ
  close : ℚ
  low : ℚ
  turnover : ℚ
  pctChg : ℚ
  rsi : FloatVal
  kdj_j : FloatVal
  y_chg : FloatVal
  bias : FloatVal
  volRat : FloatVal
deriving DecidableEq

/-- Out-of-range row (loop bounds keep all accesses in range). -/
def dRow : BTRow :=
  { date := 0, close := 0, low := 0, turnover := 0, pctChg := 0,
    rsi := FloatVal.nan, kdj_j := FloatVal.nan, y_chg := FloatVal.nan,
    bias := FloatVal.nan, volRat := FloatVal.nan }

def HOLD_DAYS : List Nat := [3, 5, 10]

def MIN_SCORE_THRESHOLD : Nat := 90

def MIN_TURNOVER : ℚ := 5000000

def VOL_RATIO_LIMIT : ℚ := 7/10

/-- The five 20-point conditions of the loop body. -/
def btScore (df : List BTRow) (i : Nat) : Nat :=
  (if (df.getD i dRow).pctChg < 0 ∧ (df.getD (i - 1) dRow).pctChg < 0 ∧
      (df.getD (i - 2) dRow).pctChg < 0 then 20 else 0)
  + (if fvLtQ (df.getD i dRow).rsi 30 = true then 20 else 0)
  + (if fvLtQ (df.getD i dRow).kdj_j 0 = true then 20 else 0)
  + (if fvLtQ (df.getD i dRow).y_chg (-15) = true then 20 else 0)
  + (if fvLtQ (df.getD i dRow).bias (-5/2) = true then 20 else 0)

/-- The dict appended to `trades`: buy date, score, rounded volume ratio and
the rounded realized return for each holding horizon. -/
structure Trade where
  buyDate : ℤ
  score : Nat
  volRat : FloatVal
  ret3 : ℚ
  ret5 : ℚ
  ret10 : ℚ
deriving DecidableEq

/-- `round((sell - buy) / buy * 100, 2)` with `sell = close` at `i + d` and
`buy = close` at `i`. -/
def retAt (df : List BTRow) (i d : Nat) : ℚ :=
  round2 (((df.getD (i + d) dRow).close - (df.getD i dRow).close)
    / (df.getD i dRow).close * 100)

/-- One iteration of the backtest loop at index `i`: skip when turnover is
below `MIN_TURNOVER`; record a trade when the score reaches
`MIN_SCORE_THRESHOLD` and the volume ratio is below `VOL_RATIO_LIMIT`. -/
def tradeAt (df : List BTRow) (i : Nat) : Option Trade :=
  if (df.getD i dRow).turnover < MIN_TURNOVER then none
  else if MIN_SCORE_THRESHOLD ≤ btScore df i ∧
      fvLtQ (df.getD i dRow).volRat VOL_RATIO_LIMIT = true then
    some { buyDate := (df.getD i dRow).date, score := btScore df i,
           volRat := round2fv (df.getD i dRow).volRat,
           ret3 := retAt df i 3, ret5 := retAt df i 5, ret10 := retAt df i 10 }
  else none

/-- `run_single_backtest`: require at least 260 rows, then scan
`range(30, len(df) - max(HOLD_DAYS))`. -/
def run_single_backtest (df : List BTRow) : List Trade :=
  if df.length < 260 then []
  else ((List.range (df.length - HOLD_DAYS.foldr max 0)).drop 30).filterMap (tradeAt df)

/-- `main` of `backtest_engine.py` writes `backtest_detail.csv` and
`backtest_summary.csv` only when at least one trade was collected; with no
trades it only prints a message and writes nothing. -/
def backtest_output_files (trades : List Trade) : List String :=
  if trades.isEmpty then [] else ["backtest_detail.csv", "backtest_summary.csv"]

/-!
## SignalScorer (`analyze_single_file` in `consecutive_drop_analysis.py`)

The decision logic reads the latest row (`df.iloc[0]` after the descending
sort) and the previous row's `J`; a `Snapshot` carries exactly those cells.
-/

def MIN_SCORE_SIGNAL : ℤ := 65

inductive SigType
| oversoldRebound
| extremeOverbought
| strongTrend
deriving DecidableEq

structure Snapshot where
  turnover : ℚ
  close : ℚ
  low : ℚ
  date : ℤ
  rsi : FloatVal
  j : FloatVal
  prevJ : FloatVal
  bias20 : FloatVal
  ma5 : FloatVal
  volRat : FloatVal
deriving DecidableEq

/-- The fields of the returned signal dict that later stages read
(display-only rounded indicator copies are omitted). -/
structure Signal where
  code : Nat
  name : String
  sigType : SigType
  score : ℤ
  stopLoss : FloatVal
  price : ℚ
  date : ℤ
deriving DecidableEq

/-- Logic A: the oversold-rebound score. -/
def scoreOversold (s : Snapshot) : ℤ :=
  (if fvLtQ s.rsi 38 = true then 35 else 0)
  + (if fvLtQ s.j 10 = true then 35 else 0)
  + (if fvLtQ s.bias20 (-3) = true then 30 else 0)

/-- The decision chain of `analyze_single_file` (after the length and
turnover gates): oversold rebound, else extreme overbought (`RSI > 80`),
else strong trend (`RSI > 65 and close > MA5`), else no signal. -/
def analyze_single_file (code : Nat) (nm : String) (s : Snapshot) : Option Signal :=
  if s.turnover < MIN_TURNOVER then none
  else if MIN_SCORE_SIGNAL ≤ scoreOversold s ∧ fvGtF s.j s.prevJ = true then
    some { code := code, name := nm, sigType := SigType.oversoldRebound,
           score := scoreOversold s, stopLoss := FloatVal.fin s.low,
           price := s.close, date := s.date }
  else if fvGtQ s.rsi 80 = true then
    some { code := code, name := nm, sigType := SigType.extremeOverbought,
           score := -20, stopLoss := round3fv s.ma5,
           price := s.close, date := s.date }
  else if (fvGtQ s.rsi 65 && fvLtQ s.ma5 s.close) = true then
    some { code := code, name := nm, sigType := SigType.strongTrend,
           score := 65, stopLoss := round3fv s.ma5,
           price := s.close, date := s.date }
  else none

/-- Header of `investment_decision.csv`: the fixed 8 columns when no result
qualifies, the 12 dict keys otherwise. -/
def decision_header (results : List Signal) : List String :=
  if results.isEmpty then
    ["代码", "名称", "信号强度", "操作建议", "综合评分", "建议止损价", "现价", "日期"]
  else
    ["代码", "名称", "信号强度", "操作建议", "综合评分", "建议止损价", "现价",
     "RSI", "KDJ_J", "MA20偏离%", "当前量比", "日期"]

/-- `main` of `consecutive_drop_analysis.py` always writes the decision
report and (through `update_portfolio`) the ledger file. -/
def analysis_output_files (_results : List Signal) : List String :=
  ["investment_decision.csv", "virtual_portfolio.csv"]

/-!
## PositionLedger (`update_portfolio` in `consecutive_drop_analysis.py`)

One CSV row of `virtual_portfolio.csv`; the schema has no status column, a
stored row is never removed or marked closed.
-/

structure PRow where
  code : Nat
  name : String
  buyDate : ℤ
  buyPrice : ℚ
  curPrice : ℚ
  holdDays : ℤ
  curRet : ℚ
  sigType : SigType
deriving DecidableEq

/-- Step 1 of `update_portfolio` for one signal: store it when its score
reaches `MIN_SCORE_SIGNAL` and no row with the same code and the same buy
date exists. -/
def storeSignal (led : List PRow) (s : Signal) : List PRow :=
  if MIN_SCORE_SIGNAL ≤ s.score then
    if led.any (fun r => r.code == s.code && r.buyDate == s.date) then led
    else led ++ [{ code := s.code, name := s.name, buyDate := s.date,
                   buyPrice := s.price, curPrice := s.price, holdDays := 0,
                   curRet := 0, sigType := s.sigType }]
  else led

def storeSignals (led : List PRow) (sigs : List Signal) : List PRow :=
  sigs.foldl storeSignal led

/-- Step 2 of `update_portfolio` for one row: when a data file for the code
exists, recompute current price, holding days (calendar difference of day
ordinals) and the rounded current return; otherwise leave the row as is. -/
def refreshRow (latest : Nat → Option (ℚ × ℤ)) (r : PRow) : PRow :=
  match latest r.code with
  | none => r
  | some (p, d) =>
    { r with curPrice := p, holdDays := d - r.buyDate,
             curRet := round2 ((p - r.buyPrice) / r.buyPrice * 100) }

/-- `update_portfolio`: store today's qualifying signals, then refresh every
row of the ledger from the latest bar of its instrument. -/
def update_portfolio (led : List PRow) (sigs : List Signal)
    (latest : Nat → Option (ℚ × ℤ)) : List PRow :=
  (storeSignals led sigs).map (refreshRow latest)

/-- At most one ledger row per (code, buy date) pair. -/
def ledgerKeyUnique (led : List PRow) : Prop :=
  led.Pairwise (fun a b => ¬(a.code = b.code ∧ a.buyDate = b.buyDate))

/-!
## Concrete inputs used by the claim theorems below
-/

/-- A filler bar: zero turnover, so the backtest loop skips it. -/
def btBase : BTRow :=
  { date := 0, close := 10, low := 10, turnover := 0, pctChg := 1,
    rsi := FloatVal.nan, kdj_j := FloatVal.nan, y_chg := FloatVal.nan,
    bias := FloatVal.nan, volRat := FloatVal.nan }

/-- A 260-bar history whose only tradeable bar is index 30 (score 100,
shrinking volume); bar 31 has low 9 and bar 33 closes at 9.4. -/
def c1Row (i : Nat) : BTRow :=
  if i = 28 ∨ i = 29 then { btBase with pctChg := -1 }
  else if i = 30 then
    { date := 30, close := 10, low := 10, turnover := 6000000, pctChg := -1,
      rsi := FloatVal.fin 20, kdj_j := FloatVal.fin (-5), y_chg := FloatVal.fin (-20),
      bias := FloatVal.fin (-3), volRat := FloatVal.fin (1/2) }
  else if i = 31 then { btBase with low := 9, close := 97/10 }
  else if i = 33 then { btBase with close := 94/10, low := 94/10 }
  else btBase

def c1df : List BTRow := (List.range 260).map c1Row

/-- The trade the backtest records at index 30 of `c1df`. -/
def c1Trade : Trade :=
  { buyDate := 30, score := 100, volRat := FloatVal.fin (1/2),
    ret3 := -6, ret5 := 0, ret10 := 0 }

/-- Like `c1df`, but bar 30 has volume ratio 1, i.e. no volume shrink. -/
def c5Row (i : Nat) : BTRow :=
  if i = 28 ∨ i = 29 then { btBase with pctChg := -1 }
  else if i = 30 then
    { date := 30, close := 10, low := 10, turnover := 6000000, pctChg := -1,
      rsi := FloatVal.fin 20, kdj_j := FloatVal.fin (-5), y_chg := FloatVal.fin (-20),
      bias := FloatVal.fin (-3), volRat := FloatVal.fin 1 }
  else btBase

def c5df : List BTRow := (List.range 260).map c5Row

/-- A snapshot satisfying the oversold band (score 35 + 30 = 65, J rising)
while also being extremely overbought (RSI 85 > 80). -/
def c4Snap : Snapshot :=
  { turnover := 6000000, close := 10, low := 49/5, date := 100,
    rsi := FloatVal.fin 85, j := FloatVal.fin 5, prevJ := FloatVal.fin 4,
    bias20 := FloatVal.fin (-4), ma5 := FloatVal.fin (21/2), volRat := FloatVal.fin (1/2) }

/-- Two qualifying signals for the same code on consecutive days. -/
def c2Sig1 : Signal :=
  { code := 7, name := "A", sigType := SigType.oversoldRebound, score := 100,
    stopLoss := FloatVal.fin 9, price := 10, date := 10 }

def c2Sig2 : Signal :=
  { code := 7, name := "A", sigType := SigType.oversoldRebound, score := 100,
    stopLoss := FloatVal.fin 8, price := 9, date := 11 }

def c2Latest1 : Nat → Option (ℚ × ℤ) := fun c => if c = 7 then some (10, 10) else none

def c2Latest2 : Nat → Option (ℚ × ℤ) := fun c => if c = 7 then some (9, 11) else none

/-- An open position bought at 10.0 whose scenario stop-loss price is 9.0. -/
def c3Row : PRow :=
  { code := 3, name := "B", buyDate := 0, buyPrice := 10, curPrice := 10,
    holdDays := 0, curRet := 0, sigType := SigType.oversoldRebound }

def c3Latest1 : Nat → Option (ℚ × ℤ) := fun c => if c = 3 then some (88/10, 3) else none

def c3Latest2 : Nat → Option (ℚ × ℤ) := fun c => if c = 3 then some (95/10, 4) else none

/-- `c3Row` after the first refresh (latest price 8.8, day 3). -/
def c3Row1 : PRow := { c3Row with curPrice := 88/10, holdDays := 3, curRet := -12 }

/-- `c3Row1` after a second refresh (latest price 9.5, day 4). -/
def c3Row2 : PRow := { c3Row with curPrice := 95/10, holdDays := 4, curRet := -5 }

/-- 15 strictly declining closes: RSI(14) is defined at index 14 and is 0. -/
def cW : List ℚ := [15, 14, 13, 12, 11, 10, 9, 8, 7, 6, 5, 4, 3, 2, 1]

/-- Five zero volumes followed by a positive one. -/
def volsW : List ℚ := [0, 0, 0, 0, 0, 10]

/-- A nonempty decision result, for comparing report headers. -/
def c8Sig : Signal :=
  { code := 1, name := "Z", sigType := SigType.strongTrend, score := 65,
    stopLoss := FloatVal.fin 5, price := 5, date := 1 }

/-- A snapshot with turnover below the 5,000,000 gate. -/
def c9Snap : Snapshot :=
  { turnover := 100, close := 10, low := 9, date := 5,
    rsi := FloatVal.fin 10, j := FloatVal.fin (-5), prevJ := FloatVal.fin (-6),
    bias20 := FloatVal.fin (-9), ma5 := FloatVal.fin 11, volRat := FloatVal.fin (1/2) }

/-- A snapshot that triggers only the extreme-overbought branch. -/
def c10Snap : Snapshot :=
  { turnover := 6000000, close := 10, low := 9, date := 5,
    rsi := FloatVal.fin 85, j := FloatVal.fin 20, prevJ := FloatVal.fin 0,
    bias20 := FloatVal.fin 0, ma5 := FloatVal.fin 1, volRat := FloatVal.fin 1 }

/-- The signal `analyze_single_file` emits on `c10Snap`. -/
def c10Sig : Signal :=
  { code := 3, name := "V", sigType := SigType.extremeOverbought, score := -20,
    stopLoss := FloatVal.fin 1, price := 10, date := 5 }

/-!
## Helper lemmas
-/

theorem avgGain_nonneg (c : List ℚ) (i : Nat) (g : ℚ) (h : avgGain c i = some g) :
    0 ≤ g := by
  unfold avgGain at h
  split at h
  · simp only [Option.some.injEq] at h
    subst h
    refine div_nonneg (List.sum_nonneg ?_) (by norm_num)
    intro x hx
    simp only [List.mem_map] at hx
    obtain ⟨j, _, rfl⟩ := hx
    unfold gainD
    split
    · exact le_refl 0
    · exact le_max_right _ _
  · simp at h

theorem avgLoss_nonneg (c : List ℚ) (i : Nat) (l : ℚ) (h : avgLoss c i = some l) :
    0 ≤ l := by
  unfold avgLoss at h
  split at h
  · simp only [Option.some.injEq] at h
    subst h
    refine div_nonneg (List.sum_nonneg ?_) (by norm_num)
    intro x hx
    simp only [List.mem_map] at hx
    obtain ⟨j, _, rfl⟩ := hx
    unfold lossD
    split
    · exact le_refl 0
    · exact le_max_right _ _
  · simp at h

theorem refreshRow_code (latest : Nat → Option (ℚ × ℤ)) (r : PRow) :
    (refreshRow latest r).code = r.code := by
  unfold refreshRow; split <;> rfl

theorem refreshRow_buyDate (latest : Nat → Option (ℚ × ℤ)) (r : PRow) :
    (refreshRow latest r).buyDate = r.buyDate := by
  unfold refreshRow; split <;> rfl

theorem refreshRow_buyPrice (latest : Nat → Option (ℚ × ℤ)) (r : PRow) :
    (refreshRow latest r).buyPrice = r.buyPrice := by
  unfold refreshRow; split <;> rfl

theorem storeSignal_keyUnique (led : List PRow) (s : Signal)
    (h : ledgerKeyUnique led) : ledgerKeyUnique (storeSignal led s) := by
  unfold storeSignal
  split
  · split
    · exact h
    · rename_i hna
      rw [ledgerKeyUnique, List.pairwise_append]
      refine ⟨h, List.pairwise_singleton _ _, ?_⟩
      intro a ha b hb
      simp only [List.mem_singleton] at hb
      subst hb
      rintro ⟨hc, hd⟩
      exact hna (List.any_eq_true.mpr ⟨a, ha, by simp [hc, hd]⟩)
  · exact h

theorem storeSignals_keyUnique (sigs : List Signal) :
    ∀ led : List PRow, ledgerKeyUnique led → ledgerKeyUnique (storeSignals led sigs) := by
  induction sigs with
  | nil => intro led h; exact h
  | cons s ss ih => intro led h; exact ih _ (storeSignal_keyUnique led s h)

theorem refreshAll_keyUnique (latest : Nat → Option (ℚ × ℤ)) (led : List PRow)
    (h : ledgerKeyUnique led) : ledgerKeyUnique (led.map (refreshRow latest)) := by
  refine List.Pairwise.map _ ?_ h
  intro a b hab hcontra
  exact hab ⟨by rw [← refreshRow_code latest a, ← refreshRow_code latest b, hcontra.1],
             by rw [← refreshRow_buyDate latest a, ← refreshRow_buyDate latest b, hcontra.2]⟩

/-!
## Claims
-/

set_option maxRecDepth 100000 in
/-- C1 (as stated, refuted): the spec claims that when the minimum low over
bars i+1 … i+h breaches entryPrice × (1 + stopLoss) (stop-loss −5%), the
recorded return for that horizon equals the stop-loss percentage. On `c1df`
the backtest records exactly one trade, at bar 30 (entry 10); bar 31's low 9
breaches 10 × (1 − 5/100) = 9.5, yet the recorded 3-day return is the plain
close-based −6, not −5. -/
theorem C1_counterexample :
    run_single_backtest c1df = [c1Trade]
    ∧ (c1df.getD 31 dRow).low < (c1df.getD 30 dRow).close * (1 + (-5)/100)
    ∧ c1Trade.ret3 = -6
    ∧ c1Trade.ret3 ≠ -5 := by
  refine ⟨by with_unfolding_all rfl, by with_unfolding_all rfl, rfl, ?_⟩
  intro h
  rw [show c1Trade.ret3 = -6 from rfl] at h
  norm_num at h

/-- C1 (amended): `run_single_backtest` applies no intra-holding stop-loss
at all: even when some bar in the window i+1 … i+3 has a low below
entryPrice × (1 − 5/100), every horizon's recorded return is the rounded
close-to-close return. -/
theorem C1_amended (df : List BTRow) (i : Nat) (t : Trade)
    (h : tradeAt df i = some t) (j : Nat) (hj1 : i + 1 ≤ j) (hj2 : j ≤ i + 3)
    (hbreach : (df.getD j dRow).low < (df.getD i dRow).close * (1 + (-5)/100)) :
    t.ret3 = round2 (((df.getD (i + 3) dRow).close - (df.getD i dRow).close)
        / (df.getD i dRow).close * 100)
    ∧ t.ret5 = round2 (((df.getD (i + 5) dRow).close - (df.getD i dRow).close)
        / (df.getD i dRow).close * 100)
    ∧ t.ret10 = round2 (((df.getD (i + 10) dRow).close - (df.getD i dRow).close)
        / (df.getD i dRow).close * 100) := by
  unfold tradeAt at h
  split_ifs at h
  simp only [Option.some.injEq] at h
  subst h
  exact ⟨rfl, rfl, rfl⟩

set_option maxRecDepth 100000 in
/-- C1 witness: the amended statement at the concrete trade of `c1df`. -/
theorem C1_witness :
    c1Trade.ret3 = round2 (((c1df.getD (30 + 3) dRow).close - (c1df.getD 30 dRow).close)
        / (c1df.getD 30 dRow).close * 100)
    ∧ c1Trade.ret5 = round2 (((c1df.getD (30 + 5) dRow).close - (c1df.getD 30 dRow).close)
        / (c1df.getD 30 dRow).close * 100)
    ∧ c1Trade.ret10 = round2 (((c1df.getD (30 + 10) dRow).close - (c1df.getD 30 dRow).close)
        / (c1df.getD 30 dRow).close * 100) :=
  C1_amended c1df 30 c1Trade (by with_unfolding_all rfl) 31 (by norm_num) (by norm_num)
    (by with_unfolding_all rfl)

/-- C2 (as stated, refuted): the spec claims at most one Open position per
instrument code at any time. The ledger schema has no status column (every
stored row stays open), and the duplicate check of `update_portfolio`
compares code AND buy date, so admitting code 7 on day 10 and again on
day 11 leaves two coexisting positions for code 7. -/
theorem C2_counterexample :
    ((update_portfolio (update_portfolio [] [c2Sig1] c2Latest1) [c2Sig2] c2Latest2).filter
      (fun r => r.code == 7)).length = 2 := by
  with_unfolding_all rfl

/-- C2 (amended): the uniqueness the ledger actually maintains is per
(code, buy date) pair: if the ledger has at most one row per (code, buy
date), it still does after a full `update_portfolio` run. -/
theorem C2_amended (led : List PRow) (sigs : List Signal)
    (latest : Nat → Option (ℚ × ℤ)) (h : ledgerKeyUnique led) :
    ledgerKeyUnique (update_portfolio led sigs latest) :=
  refreshAll_keyUnique latest _ (storeSignals_keyUnique sigs led h)

/-- C2 witness: the amended statement on one concrete run from an empty
ledger. -/
theorem C2_witness : ledgerKeyUnique (update_portfolio [] [c2Sig1] c2Latest1) :=
  C2_amended [] [c2Sig1] c2Latest1 List.Pairwise.nil

/-- C3 (as stated, refuted): the spec claims a refresh that breaches the
stop-loss (scenario: stopLossPrice 9.0, latest price 8.8) transitions the
position to StoppedOut with its return frozen, and that closed positions
are never refreshed again. The ledger row schema has no status field and
`update_portfolio` recomputes every row on every run: after the 8.8 refresh
(return −12%) a further refresh at 9.5 overwrites the return with −5%. -/
theorem C3_counterexample :
    update_portfolio [c3Row] [] c3Latest1 = [c3Row1]
    ∧ (88/10 : ℚ) < 9
    ∧ update_portfolio [c3Row1] [] c3Latest2 = [c3Row2]
    ∧ c3Row2.curRet ≠ c3Row1.curRet := by
  refine ⟨by with_unfolding_all rfl, by norm_num, by with_unfolding_all rfl, ?_⟩
  intro h
  rw [show c3Row2.curRet = -5 from rfl, show c3Row1.curRet = -12 from rfl] at h
  norm_num at h

/-- C3 (amended): on every run, every ledger row whose instrument has a
data file is recomputed from the latest bar — current price, holding days
(calendar difference of day ordinals) and rounded current return — while
code, buy date and buy price are unchanged; there is no stop-loss or
take-profit transition and no closed state, so this applies to every
position on every later run as well. -/
theorem C3_amended (led : List PRow) (latest : Nat → Option (ℚ × ℤ))
    (r : PRow) (p : ℚ) (d : ℤ) (hr : r ∈ led) (hl : latest r.code = some (p, d)) :
    { r with curPrice := p, holdDays := d - r.buyDate,
             curRet := round2 ((p - r.buyPrice) / r.buyPrice * 100) }
      ∈ update_portfolio led [] latest
    ∧ (refreshRow latest r).code = r.code
    ∧ (refreshRow latest r).buyDate = r.buyDate
    ∧ (refreshRow latest r).buyPrice = r.buyPrice := by
  refine ⟨?_, refreshRow_code latest r, refreshRow_buyDate latest r,
          refreshRow_buyPrice latest r⟩
  have hres : refreshRow latest r
      = { r with curPrice := p, holdDays := d - r.buyDate,
                 curRet := round2 ((p - r.buyPrice) / r.buyPrice * 100) } := by
    unfold refreshRow
    rw [hl]
  rw [← hres]
  exact List.mem_map_of_mem (refreshRow latest) hr

/-- C3 witness: the amended statement on the concrete position `c3Row`. -/
theorem C3_witness :
    { c3Row with curPrice := 88/10, holdDays := (3:ℤ) - c3Row.buyDate,
                 curRet := round2 ((88/10 - c3Row.buyPrice) / c3Row.buyPrice * 100) }
      ∈ update_portfolio [c3Row] [] c3Latest1
    ∧ (refreshRow c3Latest1 c3Row).code = c3Row.code
    ∧ (refreshRow c3Latest1 c3Row).buyDate = c3Row.buyDate
    ∧ (refreshRow c3Latest1 c3Row).buyPrice = c3Row.buyPrice :=
  C3_amended [c3Row] c3Latest1 c3Row (88/10) 3 (List.mem_singleton.mpr rfl)
    (by with_unfolding_all rfl)

/-- C4 (as stated, refuted): the spec claims the risk rule (rsi14 > 80 →
overbought-warning) takes precedence over the score bands. On `c4Snap`
(RSI 85 > 80, oversold band satisfied with score 65 and J rising) the
scorer emits the oversold-rebound category, because the oversold branch
comes first in the if/elif chain. -/
theorem C4_counterexample :
    fvGtQ c4Snap.rsi 80 = true
    ∧ analyze_single_file 510300 "X" c4Snap
      = some { code := 510300, name := "X", sigType := SigType.oversoldRebound,
               score := 65, stopLoss := FloatVal.fin (49/5), price := 10, date := 100 }
    ∧ SigType.oversoldRebound ≠ SigType.extremeOverbought := by
  refine ⟨by with_unfolding_all rfl, by with_unfolding_all rfl, by decide⟩

/-- C4 (amended): the scorer emits at most one category per snapshot,
chosen by first match in the order oversold-rebound, extreme-overbought,
strong-trend; whenever the oversold band applies (score ≥ 65 and J rising)
the emitted category is oversold-rebound — also when rsi14 > 80, so the
risk rule does not take precedence over the score band. -/
theorem C4_amended (code : Nat) (nm : String) (s : Snapshot)
    (hT : ¬ s.turnover < MIN_TURNOVER)
    (hBand : MIN_SCORE_SIGNAL ≤ scoreOversold s) (hJ : fvGtF s.j s.prevJ = true) :
    analyze_single_file code nm s
      = some { code := code, name := nm, sigType := SigType.oversoldRebound,
               score := scoreOversold s, stopLoss := FloatVal.fin s.low,
               price := s.close, date := s.date } := by
  unfold analyze_single_file
  rw [if_neg hT, if_pos ⟨hBand, hJ⟩]

/-- C4 witness: the amended statement on `c4Snap`, whose RSI is 85 > 80. -/
theorem C4_witness :
    analyze_single_file 1 "Y" c4Snap
      = some { code := 1, name := "Y", sigType := SigType.oversoldRebound,
               score := scoreOversold c4Snap, stopLoss := FloatVal.fin c4Snap.low,
               price := c4Snap.close, date := c4Snap.date } :=
  C4_amended 1 "Y" c4Snap
    (by rw [show c4Snap.turnover = 6000000 from rfl]; norm_num [MIN_TURNOVER])
    (by with_unfolding_all rfl) (by with_unfolding_all rfl)

set_option maxRecDepth 100000 in
/-- C5 (as stated, refuted): the spec claims a trade is recorded iff the
composite score reaches the trigger threshold. At bar 30 of `c5df` the
score is 100 ≥ 90 and the turnover gate passes, yet no trade is recorded,
because the extra hard condition `VOL_RATIO < 0.7` fails (ratio 1). -/
theorem C5_counterexample :
    btScore c5df 30 = 100
    ∧ MIN_SCORE_THRESHOLD ≤ btScore c5df 30
    ∧ ¬ (c5df.getD 30 dRow).turnover < MIN_TURNOVER
    ∧ tradeAt c5df 30 = none
    ∧ run_single_backtest c5df = [] := by
  refine ⟨by with_unfolding_all rfl, ?_, ?_,
          by with_unfolding_all rfl, by with_unfolding_all rfl⟩
  · rw [show btScore c5df 30 = 100 from by with_unfolding_all rfl]
    norm_num [MIN_SCORE_THRESHOLD]
  · rw [show (c5df.getD 30 dRow).turnover = 6000000 from by with_unfolding_all rfl]
    norm_num [MIN_TURNOVER]

/-- C5 (amended): a trade is recorded at bar i iff the bar's turnover is at
least 5,000,000, the composite score is ≥ 90 AND the volume ratio is below
0.7; and every recorded trade's 3-day return is computed from
entryPrice = close at i (likewise for the other horizons, see the C1
theorem). -/
theorem C5_amended (df : List BTRow) (i : Nat) :
    ((tradeAt df i).isSome = true ↔
      (¬ (df.getD i dRow).turnover < MIN_TURNOVER
        ∧ MIN_SCORE_THRESHOLD ≤ btScore df i
        ∧ fvLtQ (df.getD i dRow).volRat VOL_RATIO_LIMIT = true))
    ∧ (tradeAt df i).map Trade.ret3
      = (tradeAt df i).map (fun _ =>
          round2 (((df.getD (i + 3) dRow).close - (df.getD i dRow).close)
            / (df.getD i dRow).close * 100)) := by
  unfold tradeAt
  split_ifs with h1 h2
  · refine ⟨⟨fun hfalse => absurd hfalse (by simp), fun hc => absurd h1 hc.1⟩, rfl⟩
  · exact ⟨⟨fun _ => ⟨h1, h2.1, h2.2⟩, fun _ => rfl⟩, rfl⟩
  · refine ⟨⟨fun hfalse => absurd hfalse (by simp),
            fun hc => absurd ⟨hc.2.1, hc.2.2⟩ h2⟩, rfl⟩

/-- C6 (confirmed): wherever the RSI column is defined it lies in [0,100];
when the defined value has a zero 14-bar average loss it is exactly 100,
and when it has a zero 14-bar average gain it is exactly 0. -/
theorem C6_rsi_bounds (c : List ℚ) (i : Nat) (r : ℚ) (h : RSI_at c i = some r) :
    0 ≤ r ∧ r ≤ 100
    ∧ (avgLoss c i = some 0 → r = 100)
    ∧ (avgGain c i = some 0 → r = 0) := by
  unfold RSI_at at h
  cases hg : avgGain c i with
  | none => rw [hg] at h; exact absurd h (by simp)
  | some g =>
  cases hl : avgLoss c i with
  | none => rw [hg, hl] at h; exact absurd h (by simp)
  | some l =>
  rw [hg, hl] at h
  have hr : rsiFrom g l = some r := h
  have hg0 : 0 ≤ g := avgGain_nonneg c i g hg
  have hl0 : 0 ≤ l := avgLoss_nonneg c i l hl
  unfold rsiFrom at hr
  by_cases hlz : l = 0
  · rw [if_pos hlz] at hr
    by_cases hgz : g = 0
    · rw [if_pos hgz] at hr; exact absurd hr (by simp)
    · rw [if_neg hgz] at hr
      simp only [Option.some.injEq] at hr
      subst hr
      refine ⟨by norm_num, le_refl 100, fun _ => rfl, fun hga => ?_⟩
      simp only [Option.some.injEq] at hga
      exact absurd hga hgz
  · rw [if_neg hlz] at hr
    simp only [Option.some.injEq] at hr
    subst hr
    have hq : 0 ≤ g / l := div_nonneg hg0 hl0
    have hden : (1:ℚ) ≤ 1 + g / l := by linarith
    have hle : 100 / (1 + g / l) ≤ 100 := div_le_self (by norm_num) hden
    have hpos : 0 < 100 / (1 + g / l) := div_pos (by norm_num) (by linarith)
    refine ⟨by linarith, by linarith, fun hla => ?_, fun hga => ?_⟩
    · simp only [Option.some.injEq] at hla
      exact absurd hla hlz
    · simp only [Option.some.injEq] at hga
      rw [hga, zero_div]
      norm_num

/-- C6 witness: on 15 strictly declining closes, RSI at index 14 is defined
(average gain 0, average loss 1) and equals 0. -/
theorem C6_witness :
    0 ≤ (0:ℚ) ∧ (0:ℚ) ≤ 100
    ∧ (avgLoss cW 14 = some 0 → (0:ℚ) = 100)
    ∧ (avgGain cW 14 = some 0 → (0:ℚ) = 0) :=
  C6_rsi_bounds cW 14 0 (by with_unfolding_all rfl)

/-- C7 (as stated, refuted): the spec claims the volume ratio is defined
and equals 0 when the trailing-5 average volume is 0. On `volsW` the
average is 0 and the current volume is 10: pandas produces `inf`, which is
defined in the sense of not raising, but is not 0. -/
theorem C7_counterexample :
    vMA5 volsW 5 = some 0
    ∧ volRatAt volsW 5 = some FloatVal.posInf
    ∧ FloatVal.posInf ≠ FloatVal.fin 0 := by
  refine ⟨by with_unfolding_all rfl, by with_unfolding_all rfl, by decide⟩

/-- C7 (amended): when the trailing-5 average volume is 0 no exception is
raised, but the ratio is not 0: it is `NaN` when the current volume is also
0, `+inf` when it is positive (`-inf` for a negative volume); in no case a
finite value. -/
theorem C7_amended (v : List ℚ) (i : Nat) (h : vMA5 v i = some 0) :
    volRatAt v i = some (if v.getD i 0 = 0 then FloatVal.nan
      else if 0 < v.getD i 0 then FloatVal.posInf else FloatVal.negInf) := by
  unfold volRatAt
  rw [h]
  simp only [Option.map_some']
  unfold fdiv
  rw [if_pos rfl]

/-- C7 witness: the amended statement on `volsW`. -/
theorem C7_witness :
    volRatAt volsW 5 = some (if volsW.getD 5 0 = 0 then FloatVal.nan
      else if 0 < volsW.getD 5 0 then FloatVal.posInf else FloatVal.negInf) :=
  C7_amended volsW 5 (by with_unfolding_all rfl)

/-- C8 (as stated, refuted): the spec claims every run emits its output
artifacts as well-formed empty outputs with stable headers, never an absent
file. The backtest `main` writes no file at all when no trade qualifies,
and the analysis script's empty-run header (8 columns) differs from its
nonempty header (12 columns). -/
theorem C8_counterexample :
    backtest_output_files [] = []
    ∧ ¬ "backtest_detail.csv" ∈ backtest_output_files []
    ∧ decision_header [] ≠ decision_header [c8Sig]
    ∧ (decision_header []).length = 8
    ∧ (decision_header [c8Sig]).length = 12 := by
  refine ⟨rfl, by simp [backtest_output_files], by decide, rfl, rfl⟩

/-- C8 (amended): on an empty run, the analysis script still writes
`investment_decision.csv` (with its fixed 8-column empty header) and the
ledger file `virtual_portfolio.csv`, while the backtest script writes no
output file at all. -/
theorem C8_amended (results : List Signal) (trades : List Trade)
    (hres : results = []) (htr : trades = []) :
    "investment_decision.csv" ∈ analysis_output_files results
    ∧ "virtual_portfolio.csv" ∈ analysis_output_files results
    ∧ decision_header results
      = ["代码", "名称", "信号强度", "操作建议", "综合评分", "建议止损价", "现价", "日期"]
    ∧ backtest_output_files trades = [] := by
  subst hres; subst htr
  exact ⟨by simp [analysis_output_files], by simp [analysis_output_files], rfl, rfl⟩

/-- C8 witness: the amended statement on the empty run. -/
theorem C8_witness :
    "investment_decision.csv" ∈ analysis_output_files []
    ∧ "virtual_portfolio.csv" ∈ analysis_output_files []
    ∧ decision_header []
      = ["代码", "名称", "信号强度", "操作建议", "综合评分", "建议止损价", "现价", "日期"]
    ∧ backtest_output_files [] = [] :=
  C8_amended [] [] rfl rfl

/-- C9 (confirmed): a bar with turnover below 5,000,000 produces no signal
in the scorer (`analyze_single_file` returns nothing) and records no trade
in the backtest loop (`tradeAt` returns nothing), whatever the indicator
values are. -/
theorem C9_turnover_gate (code : Nat) (nm : String) (s : Snapshot)
    (df : List BTRow) (i : Nat)
    (hs : s.turnover < MIN_TURNOVER)
    (hb : (df.getD i dRow).turnover < MIN_TURNOVER) :
    analyze_single_file code nm s = none ∧ tradeAt df i = none := by
  constructor
  · unfold analyze_single_file
    rw [if_pos hs]
  · unfold tradeAt
    rw [if_pos hb]

/-- C9 witness: the gate on a concrete low-turnover snapshot and bar. -/
theorem C9_witness :
    analyze_single_file 2 "W" c9Snap = none ∧ tradeAt [btBase] 0 = none :=
  C9_turnover_gate 2 "W" c9Snap [btBase] 0 (by with_unfolding_all rfl)
    (by with_unfolding_all rfl)

/-- C10 (confirmed): every signal in the extreme-overbought category
carries composite score −20, which is below the ledger's admission
threshold 65, so storing it leaves the ledger unchanged. -/
theorem C10_overbought_never_stored (code : Nat) (nm : String) (s : Snapshot)
    (sig : Signal) (led : List PRow)
    (h : analyze_single_file code nm s = some sig)
    (ht : sig.sigType = SigType.extremeOverbought) :
    sig.score = -20 ∧ storeSignal led sig = led := by
  unfold analyze_single_file at h
  split_ifs at h <;> simp only [Option.some.injEq] at h <;> subst h
  · exact absurd ht (by simp)
  · refine ⟨rfl, ?_⟩
    unfold storeSignal
    rw [if_neg (by norm_num [MIN_SCORE_SIGNAL])]
  · exact absurd ht (by simp)

/-- C10 witness: the statement on the concrete overbought signal of
`c10Snap`, against the empty ledger. -/
theorem C10_witness : c10Sig.score = -20 ∧ storeSignal [] c10Sig = [] :=
  C10_overbought_never_stored 3 "V" c10Snap c10Sig []
    (by with_unfolding_all rfl) rfl
